import Mathlib

/-!
Verification of the neosnake simulation core.

The definitions below are a shallow embedding of the game logic found in
the repository sources:
  * `src/App.tsx` — the simulation controller (`gameTick`, `gameOver`,
    `resetGame`, `handleDirectionChange`, `generateFood`);
  * `src/services/visionService.ts` — the gesture classifier
    (`detectGesture`);
  * `src/services/geminiService.ts` — the theme provider
    (`generateLevelTheme`, `DEFAULT_THEME`);
  * `src/types.ts` — the shared data model (`Direction`, `GameStatus`,
    `Point`, `GameTheme`, `ScoreEntry`).

JavaScript numbers holding grid coordinates are modelled as `Int`
(all reachable values are small integers), scores and levels as `Nat`,
and the normalized landmark coordinates of the vision service as `ℚ`.
`Math.random` is modelled by an explicit stream of draws, and the
unbounded `do … while` rejection loop of food placement by explicit
fuel, returning `none` when the fuel runs out.  Asynchronous effects
(the theme fetch) are modelled by an explicit outcome value.
-/

/-- `Direction` enum from `src/types.ts`. -/
inductive Direction where
  | UP
  | DOWN
  | LEFT
  | RIGHT
deriving DecidableEq, Repr

/-- `GameStatus` enum from `src/types.ts`. -/
inductive GameStatus where
  | MENU
  | PLAYING
  | GAME_OVER
deriving DecidableEq, Repr

/-- `Point` interface from `src/types.ts`: an integer grid cell. -/
structure Point where
  x : Int
  y : Int
deriving DecidableEq, Repr

instance : Inhabited Point := ⟨⟨0, 0⟩⟩

/-- `ScoreEntry` interface from `src/types.ts`. -/
structure ScoreEntry where
  gameId : Nat
  score : Nat
  level : Nat
deriving DecidableEq, Repr

/-- The simulation state owned by the `App` component in `src/App.tsx`:
the `snake`, `food`, `direction`, `score`, `level`, `status`, `history`
and `gameCount` React states together with the `nextDirectionRef`
direction buffer. -/
structure GameState where
  status : GameStatus
  snake : List Point
  food : Point
  direction : Direction
  nextDirection : Direction
  score : Nat
  level : Nat
  history : List ScoreEntry
  gameCount : Nat
deriving DecidableEq, Repr

/-- `GRID_SIZE` constant from `src/App.tsx` (cell size in pixels). -/
def GRID_SIZE : Nat := 20

/-- The exact reverse of a direction (used only to state the
anti-reversal property; the source spells the four cases inline). -/
def oppositeDir : Direction → Direction
  | Direction.UP => Direction.DOWN
  | Direction.DOWN => Direction.UP
  | Direction.LEFT => Direction.RIGHT
  | Direction.RIGHT => Direction.LEFT

/-- `handleDirectionChange` from `src/App.tsx`: given the committed
direction (`directionRef.current`), the current buffer
(`nextDirectionRef.current`) and the requested direction, returns the
new buffer content.  Each guarded `return` of the source leaves the
buffer unchanged; otherwise the buffer is overwritten. -/
def handleDirectionChange (current buffered newDir : Direction) : Direction :=
  if newDir = Direction.UP ∧ current = Direction.DOWN then buffered
  else if newDir = Direction.DOWN ∧ current = Direction.UP then buffered
  else if newDir = Direction.LEFT ∧ current = Direction.RIGHT then buffered
  else if newDir = Direction.RIGHT ∧ current = Direction.LEFT then buffered
  else newDir

/-- The head displacement `switch` of `gameTick` in `src/App.tsx`:
move a point one cell along a direction. -/
def movePoint (d : Direction) (p : Point) : Point :=
  match d with
  | Direction.UP => { p with y := p.y - 1 }
  | Direction.DOWN => { p with y := p.y + 1 }
  | Direction.LEFT => { p with x := p.x - 1 }
  | Direction.RIGHT => { p with x := p.x + 1 }

/-- Wall check of `gameTick` in `src/App.tsx`:
`newHead.x < 0 || newHead.x >= gridCountX || newHead.y < 0 || newHead.y >= gridCountY`. -/
def wallCollision (gridCountX gridCountY : Int) (p : Point) : Bool :=
  p.x < 0 || p.x ≥ gridCountX || p.y < 0 || p.y ≥ gridCountY

/-- Self-collision check of `gameTick` in `src/App.tsx`:
`prevSnake.some(segment => segment.x === newHead.x && segment.y === newHead.y)`. -/
def selfCollision (snake : List Point) (p : Point) : Bool :=
  snake.any (fun segment => segment.x == p.x && segment.y == p.y)

/-- The `gameOver` callback from `src/App.tsx`: stops the loop, sets
status `GAME_OVER`, appends a `ScoreEntry` to the history keeping the
last 10 (`slice(-10)`), and increments the game counter. -/
def gameOverUpdate (s : GameState) : GameState :=
  let newHistory :=
    s.history ++ [{ gameId := s.gameCount + 1, score := s.score, level := s.level }]
  { s with
    status := GameStatus.GAME_OVER
    history := newHistory.drop (newHistory.length - 10)
    gameCount := s.gameCount + 1 }

/-- One simulation step: `gameTick` from `src/App.tsx`.  The grid
dimensions are the closure-captured `gridCountX`/`gridCountY`; the
food generator (`generateFood`, rejection sampling over `Math.random`)
is abstracted as the oracle `genFood` so that the step stays a pure
function.  The buffered direction is committed first
(`directionRef.current = currentDir; setDirection(currentDir)`), then
walls, then self collision, then food. -/
def gameTick (gridCountX gridCountY : Int) (genFood : List Point → Point)
    (s : GameState) : GameState :=
  let currentDir := s.nextDirection
  let head := s.snake.headI
  let newHead := movePoint currentDir head
  if wallCollision gridCountX gridCountY newHead then
    gameOverUpdate { s with direction := currentDir }
  else if selfCollision s.snake newHead then
    gameOverUpdate { s with direction := currentDir }
  else
    let newSnake := newHead :: s.snake
    if newHead.x == s.food.x && newHead.y == s.food.y then
      let newScore := s.score + 10
      { s with
        direction := currentDir
        snake := newSnake
        score := newScore
        level := if newScore % 50 == 0 then s.level + 1 else s.level
        food := genFood newSnake }
    else
      { s with direction := currentDir, snake := newSnake.dropLast }

/-- `resetGame` from `src/App.tsx`: a 3-segment horizontal snake
centered on the grid, fresh food, zero score, level 1, direction and
buffer `RIGHT`, status `PLAYING`.  History and game counter persist. -/
def resetGame (gridCountX gridCountY : Int) (genFood : List Point → Point)
    (s : GameState) : GameState :=
  let startX := gridCountX / 2
  let startY := gridCountY / 2
  let initialSnake : List Point :=
    [⟨startX, startY⟩, ⟨startX - 1, startY⟩, ⟨startX - 2, startY⟩]
  { s with
    snake := initialSnake
    food := genFood initialSnake
    score := 0
    level := 1
    direction := Direction.RIGHT
    nextDirection := Direction.RIGHT
    status := GameStatus.PLAYING }

/-- `generateFood` rejection loop from `src/App.tsx`, one iteration per
unit of fuel.  `draws i` models the pair of `Math.random()` outputs of
iteration `i`, already scaled to nonnegative integers; `% available`
places the candidate in `[margin, margin + available)` exactly as
`Math.floor(Math.random() * available) + margin` does. -/
def generateFoodAux (availableX availableY : Nat) (draws : Nat → Nat × Nat)
    (currentSnake : List Point) : Nat → Nat → Option Point
  | 0, _ => none
  | fuel + 1, i =>
    let newFood : Point :=
      ⟨((draws i).1 % availableX + 2 : Nat), ((draws i).2 % availableY + 2 : Nat)⟩
    if currentSnake.any (fun segment => segment.x == newFood.x && segment.y == newFood.y) then
      generateFoodAux availableX availableY draws currentSnake fuel (i + 1)
    else
      some newFood

/-- `generateFood` from `src/App.tsx`: dimensions from the board size,
margin 2 from the walls, rejection sampling until the candidate misses
the snake.  The unbounded `do … while` is given explicit fuel; `none`
models non-termination of the source loop. -/
def generateFood (width height : Nat) (draws : Nat → Nat × Nat) (fuel : Nat)
    (currentSnake : List Point) : Option Point :=
  let maxX := width / GRID_SIZE
  let maxY := height / GRID_SIZE
  let availableX := max 1 (maxX - 2 * 2)
  let availableY := max 1 (maxY - 2 * 2)
  generateFoodAux availableX availableY draws currentSnake fuel 0

/-- A hand landmark from `src/services/visionService.ts`: one tracked
point in normalized camera coordinates.  Modelled over `ℚ`. -/
structure Landmark where
  x : ℚ
  y : ℚ
deriving DecidableEq, Repr

/-- `SENSITIVITY` threshold constant of `detectGesture` in
`src/services/visionService.ts` (`0.08`). -/
def SENSITIVITY : ℚ := 8 / 100

/-- The classification core of `detectGesture` from
`src/services/visionService.ts`, applied to the wrist (landmark 0) and
index fingertip (landmark 8) of a detected hand.  `none` models the
`null` returned when no axis exceeds the threshold. -/
def detectGesture (wrist indexTip : Landmark) : Option Direction :=
  let deltaX := indexTip.x - wrist.x
  let deltaY := indexTip.y - wrist.y
  if |deltaX| > |deltaY| then
    if |deltaX| > SENSITIVITY then
      some (if deltaX < -SENSITIVITY then Direction.RIGHT else Direction.LEFT)
    else
      none
  else
    if |deltaY| > SENSITIVITY then
      some (if deltaY < -SENSITIVITY then Direction.UP else Direction.DOWN)
    else
      none

/-- `GameTheme` interface from `src/types.ts`. -/
structure GameTheme where
  name : String
  gridColor : String
  snakeHeadColor : String
  snakeBodyColor : String
  foodColor : String
  backgroundColor : String
  glowColor : String
  storyText : String
deriving DecidableEq, Repr

/-- `DEFAULT_THEME` from `src/services/geminiService.ts`. -/
def DEFAULT_THEME : GameTheme :=
  { name := "Neon Genesis"
    gridColor := "#1f2937"
    snakeHeadColor := "#00ffcc"
    snakeBodyColor := "#00ccaa"
    foodColor := "#ff00ff"
    backgroundColor := "#000000"
    glowColor := "rgba(0, 255, 204, 0.5)"
    storyText := "System initialized. Grid online. Consume energy nodes to survive." }

/-- The `catch` branch of `generateLevelTheme` in
`src/services/geminiService.ts`: the default theme with name and story
replaced by the offline-mode values. -/
def offlineTheme (level : Nat) : GameTheme :=
  { DEFAULT_THEME with
    name := "Level " ++ toString level ++ " (Offline Mode)"
    storyText := "Uplink failed. Running local simulation." }

/-- Outcome of the `ai.models.generateContent` call in
`src/services/geminiService.ts`: either the promise rejects
(`apiError`), or it resolves with `response.text` either absent
(`response (none)`) or holding a string. -/
inductive FetchOutcome where
  | apiError
  | response (text : Option String)
deriving DecidableEq, Repr

/-- `generateLevelTheme` from `src/services/geminiService.ts`.  The
external `JSON.parse(text) as GameTheme` step is the oracle `parse`
(`none` models `JSON.parse` throwing, which the source `catch`
intercepts along with a rejected API call).  `previousThemeName` only
feeds the prompt text, which is not modelled. -/
def generateLevelTheme (parse : String → Option GameTheme) (level : Nat)
    (previousThemeName : String) (outcome : FetchOutcome) : GameTheme :=
  match outcome with
  | FetchOutcome.apiError => offlineTheme level
  | FetchOutcome.response none => DEFAULT_THEME
  | FetchOutcome.response (some text) =>
    match parse text with
    | some t => t
    | none => offlineTheme level

/-- Concrete playing state used by witnesses: a one-segment snake at
(1,1) about to eat the food at (2,1) while moving right on a 5×5 grid,
with score 40. -/
def sampleState : GameState :=
  { status := GameStatus.PLAYING, snake := [⟨1, 1⟩], food := ⟨2, 1⟩,
    direction := Direction.RIGHT, nextDirection := Direction.RIGHT,
    score := 40, level := 1, history := [], gameCount := 0 }

/-- Concrete playing state whose buffered direction `UP` drives the head
at (0,0) into the wall, while the committed direction is still `RIGHT`. -/
def c4State : GameState :=
  { status := GameStatus.PLAYING, snake := [⟨0, 0⟩], food := ⟨3, 3⟩,
    direction := Direction.RIGHT, nextDirection := Direction.UP,
    score := 0, level := 1, history := [], gameCount := 0 }

/-- The componentwise `===` test of the source coincides with equality
of points. -/
theorem point_beq_iff (p q : Point) : (p.x == q.x && p.y == q.y) = true ↔ p = q := by
  cases p
  cases q
  simp [Point.mk.injEq]

/-- The `Array.some` membership test of the source coincides with list
membership. -/
theorem selfCollision_iff_mem (snake : List Point) (p : Point) :
    selfCollision snake p = true ↔ p ∈ snake := by
  simp only [selfCollision, List.any_eq_true, point_beq_iff]
  exact ⟨fun ⟨q, hq, he⟩ => he ▸ hq, fun h => ⟨p, h, rfl⟩⟩

/-- Claim C1: on a tick taken from a `PLAYING` state, the status after
the tick is `GAME_OVER` if and only if the new head (the pre-tick head
moved one cell along the applied buffered direction) lies outside the
grid bounds or coincides with some segment of the pre-tick snake
(which includes the tail segment). -/
theorem game_over_iff_collision (gridCountX gridCountY : Int)
    (genFood : List Point → Point) (s : GameState)
    (hne : s.snake ≠ []) (hplay : s.status = GameStatus.PLAYING) :
    (gameTick gridCountX gridCountY genFood s).status = GameStatus.GAME_OVER ↔
      (wallCollision gridCountX gridCountY
          (movePoint s.nextDirection s.snake.headI) = true ∨
        selfCollision s.snake (movePoint s.nextDirection s.snake.headI) = true) := by
  unfold gameTick
  cases hw : wallCollision gridCountX gridCountY (movePoint s.nextDirection s.snake.headI) with
  | true => simp [hw, gameOverUpdate]
  | false =>
    cases hs : selfCollision s.snake (movePoint s.nextDirection s.snake.headI) with
    | true => simp [hw, hs, gameOverUpdate]
    | false =>
      by_cases hf : ((movePoint s.nextDirection s.snake.headI).x == s.food.x &&
          (movePoint s.nextDirection s.snake.headI).y == s.food.y) = true
      · simp [hw, hs, hf, hplay]
      · simp [hw, hs, hf, hplay]

/-- Witness for C1 at a concrete non-colliding state. -/
theorem game_over_iff_collision_witness :
    sampleState.snake ≠ [] ∧ sampleState.status = GameStatus.PLAYING ∧
      ((gameTick 5 5 (fun _ => (⟨0, 0⟩ : Point)) sampleState).status = GameStatus.GAME_OVER ↔
        (wallCollision 5 5 (movePoint sampleState.nextDirection sampleState.snake.headI) = true ∨
          selfCollision sampleState.snake
            (movePoint sampleState.nextDirection sampleState.snake.headI) = true)) :=
  ⟨by decide, by decide,
    game_over_iff_collision 5 5 (fun _ => (⟨0, 0⟩ : Point)) sampleState (by decide) (by decide)⟩

/-- Claim C2: on a tick that does not end in `GAME_OVER`, the snake
grows by exactly one segment precisely when the new head equals the
pre-tick food position, and keeps its length otherwise. -/
theorem tick_length (gridCountX gridCountY : Int) (genFood : List Point → Point)
    (s : GameState) (hne : s.snake ≠ [])
    (hns : (gameTick gridCountX gridCountY genFood s).status ≠ GameStatus.GAME_OVER) :
    (gameTick gridCountX gridCountY genFood s).snake.length =
      if movePoint s.nextDirection s.snake.headI = s.food
      then s.snake.length + 1 else s.snake.length := by
  unfold gameTick at hns ⊢
  cases hw : wallCollision gridCountX gridCountY (movePoint s.nextDirection s.snake.headI) with
  | true => simp [hw, gameOverUpdate] at hns
  | false =>
    cases hs : selfCollision s.snake (movePoint s.nextDirection s.snake.headI) with
    | true => simp [hw, hs, gameOverUpdate] at hns
    | false =>
      by_cases hf : ((movePoint s.nextDirection s.snake.headI).x == s.food.x &&
          (movePoint s.nextDirection s.snake.headI).y == s.food.y) = true
      · have heq : movePoint s.nextDirection s.snake.headI = s.food :=
          (point_beq_iff _ _).mp hf
        rw [if_pos heq]
        simp [hw, hs, hf]
      · have heq : ¬ movePoint s.nextDirection s.snake.headI = s.food := by
          intro h
          exact hf ((point_beq_iff _ _).mpr h)
        rw [if_neg heq]
        simp [hw, hs, hf, List.length_dropLast]

/-- Witness for C2 at a concrete food-eating tick. -/
theorem tick_length_witness :
    sampleState.snake ≠ [] ∧
      (gameTick 5 5 (fun _ => (⟨0, 0⟩ : Point)) sampleState).status ≠ GameStatus.GAME_OVER ∧
      (gameTick 5 5 (fun _ => (⟨0, 0⟩ : Point)) sampleState).snake.length =
        (if movePoint sampleState.nextDirection sampleState.snake.headI = sampleState.food
         then sampleState.snake.length + 1 else sampleState.snake.length) :=
  ⟨by decide, by decide,
    tick_length 5 5 (fun _ => (⟨0, 0⟩ : Point)) sampleState (by decide) (by decide)⟩

/-- Claim C3: submitting the exact opposite of the committed direction
leaves the buffered intent unchanged, and (for an arbitrary request)
the buffer after `handleDirectionChange` is never the reverse of the
committed direction, provided it was not before — so the direction
applied at the next tick is never the reverse of the committed one. -/
theorem anti_reversal (current buffered newDir : Direction)
    (hbuf : buffered ≠ oppositeDir current) :
    handleDirectionChange current buffered (oppositeDir current) = buffered ∧
      handleDirectionChange current buffered newDir ≠ oppositeDir current := by
  cases current <;> cases buffered <;> cases newDir <;>
    simp_all [handleDirectionChange, oppositeDir]

/-- Witness for C3 with committed direction `UP` and buffer `LEFT`. -/
theorem anti_reversal_witness :
    Direction.LEFT ≠ oppositeDir Direction.UP ∧
      (handleDirectionChange Direction.UP Direction.LEFT (oppositeDir Direction.UP) =
          Direction.LEFT ∧
        handleDirectionChange Direction.UP Direction.LEFT Direction.RIGHT ≠
          oppositeDir Direction.UP) :=
  ⟨by decide, anti_reversal Direction.UP Direction.LEFT Direction.RIGHT (by decide)⟩

/-- Counterexample to C4 as stated: from `c4State` (committed direction
`RIGHT`, buffered direction `UP`, head at the top wall) the tick ends in
`GAME_OVER`, yet the direction state after the tick differs from its
pre-tick value — the buffered direction is committed before the
collision check. -/
theorem collision_direction_counterexample :
    (gameTick 5 5 (fun _ => (⟨0, 0⟩ : Point)) c4State).status = GameStatus.GAME_OVER ∧
      (gameTick 5 5 (fun _ => (⟨0, 0⟩ : Point)) c4State).direction ≠ c4State.direction := by
  decide

/-- Claim C4 as amended: on a colliding tick the snake body, food,
score, level and buffered direction are unchanged and the status
becomes `GAME_OVER` (with the game counter incremented for the history
entry), but the committed direction is set to the buffered direction
applied on that tick, which may differ from its pre-tick value. -/
theorem collision_preserves_state (gridCountX gridCountY : Int)
    (genFood : List Point → Point) (s : GameState)
    (hcol : wallCollision gridCountX gridCountY
        (movePoint s.nextDirection s.snake.headI) = true ∨
      selfCollision s.snake (movePoint s.nextDirection s.snake.headI) = true) :
    (gameTick gridCountX gridCountY genFood s).status = GameStatus.GAME_OVER ∧
      (gameTick gridCountX gridCountY genFood s).snake = s.snake ∧
      (gameTick gridCountX gridCountY genFood s).food = s.food ∧
      (gameTick gridCountX gridCountY genFood s).score = s.score ∧
      (gameTick gridCountX gridCountY genFood s).level = s.level ∧
      (gameTick gridCountX gridCountY genFood s).nextDirection = s.nextDirection ∧
      (gameTick gridCountX gridCountY genFood s).direction = s.nextDirection ∧
      (gameTick gridCountX gridCountY genFood s).gameCount = s.gameCount + 1 := by
  rcases hcol with h | h
  · simp [gameTick, gameOverUpdate, h]
  · cases hw : wallCollision gridCountX gridCountY (movePoint s.nextDirection s.snake.headI) with
    | true => simp [gameTick, gameOverUpdate, hw]
    | false => simp [gameTick, gameOverUpdate, hw, h]

/-- Witness for the amended C4 at the concrete wall-collision state. -/
theorem collision_preserves_state_witness :
    (wallCollision 5 5 (movePoint c4State.nextDirection c4State.snake.headI) = true ∨
        selfCollision c4State.snake (movePoint c4State.nextDirection c4State.snake.headI) = true) ∧
      ((gameTick 5 5 (fun _ => (⟨0, 0⟩ : Point)) c4State).status = GameStatus.GAME_OVER ∧
        (gameTick 5 5 (fun _ => (⟨0, 0⟩ : Point)) c4State).snake = c4State.snake ∧
        (gameTick 5 5 (fun _ => (⟨0, 0⟩ : Point)) c4State).food = c4State.food ∧
        (gameTick 5 5 (fun _ => (⟨0, 0⟩ : Point)) c4State).score = c4State.score ∧
        (gameTick 5 5 (fun _ => (⟨0, 0⟩ : Point)) c4State).level = c4State.level ∧
        (gameTick 5 5 (fun _ => (⟨0, 0⟩ : Point)) c4State).nextDirection = c4State.nextDirection ∧
        (gameTick 5 5 (fun _ => (⟨0, 0⟩ : Point)) c4State).direction = c4State.nextDirection ∧
        (gameTick 5 5 (fun _ => (⟨0, 0⟩ : Point)) c4State).gameCount = c4State.gameCount + 1) :=
  ⟨by decide,
    collision_preserves_state 5 5 (fun _ => (⟨0, 0⟩ : Point)) c4State (Or.inl (by decide))⟩

/-- Claim C7: on a food-eating tick the score grows by exactly 10, and
the level grows by exactly 1 precisely when the resulting cumulative
score is a multiple of 50. -/
theorem food_score_level (gridCountX gridCountY : Int) (genFood : List Point → Point)
    (s : GameState) (hne : s.snake ≠ [])
    (hw : wallCollision gridCountX gridCountY
      (movePoint s.nextDirection s.snake.headI) = false)
    (hs : selfCollision s.snake (movePoint s.nextDirection s.snake.headI) = false)
    (heat : movePoint s.nextDirection s.snake.headI = s.food) :
    (gameTick gridCountX gridCountY genFood s).score = s.score + 10 ∧
      ((gameTick gridCountX gridCountY genFood s).level = s.level + 1 ↔
        (s.score + 10) % 50 = 0) := by
  have hf : ((movePoint s.nextDirection s.snake.headI).x == s.food.x &&
      (movePoint s.nextDirection s.snake.headI).y == s.food.y) = true :=
    (point_beq_iff _ _).mpr heat
  unfold gameTick
  by_cases h50 : (s.score + 10) % 50 = 0
  · simp [hw, hs, hf, h50]
  · simp [hw, hs, hf, h50]

/-- Witness for C7: eating at score 40 reaches 50 and levels up. -/
theorem food_score_level_witness :
    sampleState.snake ≠ [] ∧
      wallCollision 5 5 (movePoint sampleState.nextDirection sampleState.snake.headI) = false ∧
      selfCollision sampleState.snake
        (movePoint sampleState.nextDirection sampleState.snake.headI) = false ∧
      movePoint sampleState.nextDirection sampleState.snake.headI = sampleState.food ∧
      ((gameTick 5 5 (fun _ => (⟨0, 0⟩ : Point)) sampleState).score = sampleState.score + 10 ∧
        ((gameTick 5 5 (fun _ => (⟨0, 0⟩ : Point)) sampleState).level = sampleState.level + 1 ↔
          (sampleState.score + 10) % 50 = 0)) :=
  ⟨by decide, by decide, by decide, by decide,
    food_score_level 5 5 (fun _ => (⟨0, 0⟩ : Point)) sampleState
      (by decide) (by decide) (by decide) (by decide)⟩

/-- A tick either keeps the snake length or grows it by one. -/
theorem gameTick_snake_length (gridCountX gridCountY : Int)
    (genFood : List Point → Point) (s : GameState) :
    (gameTick gridCountX gridCountY genFood s).snake.length = s.snake.length ∨
      (gameTick gridCountX gridCountY genFood s).snake.length = s.snake.length + 1 := by
  unfold gameTick
  cases hw : wallCollision gridCountX gridCountY (movePoint s.nextDirection s.snake.headI) with
  | true => left; simp [hw, gameOverUpdate]
  | false =>
    cases hs : selfCollision s.snake (movePoint s.nextDirection s.snake.headI) with
    | true => left; simp [hw, hs, gameOverUpdate]
    | false =>
      by_cases hf : ((movePoint s.nextDirection s.snake.headI).x == s.food.x &&
          (movePoint s.nextDirection s.snake.headI).y == s.food.y) = true
      · right; simp [hw, hs, hf]
      · left; simp [hw, hs, hf, List.length_dropLast]

/-- Claim C10: reset produces a snake of exactly three segments; a tick
from a state with a nonempty snake never shrinks the snake (and grows
it strictly on a collision-free food-eating tick), so the post-tick
snake is again nonempty and the next tick has a well-defined head. -/
theorem snake_never_empty (gridCountX gridCountY : Int)
    (genFood : List Point → Point) (s : GameState) (hne : s.snake ≠ []) :
    (resetGame gridCountX gridCountY genFood s).snake.length = 3 ∧
      s.snake.length ≤ (gameTick gridCountX gridCountY genFood s).snake.length ∧
      (gameTick gridCountX gridCountY genFood s).snake ≠ [] ∧
      (wallCollision gridCountX gridCountY
          (movePoint s.nextDirection s.snake.headI) = false →
        selfCollision s.snake (movePoint s.nextDirection s.snake.headI) = false →
        movePoint s.nextDirection s.snake.headI = s.food →
        s.snake.length < (gameTick gridCountX gridCountY genFood s).snake.length) := by
  have hpos : 0 < s.snake.length := List.length_pos.mpr hne
  have hlen := gameTick_snake_length gridCountX gridCountY genFood s
  refine ⟨by simp [resetGame], ?_, ?_, ?_⟩
  · rcases hlen with h | h <;> omega
  · have : 0 < (gameTick gridCountX gridCountY genFood s).snake.length := by
      rcases hlen with h | h <;> omega
    exact List.ne_nil_of_length_pos this
  · intro hw hs heat
    have hf : ((movePoint s.nextDirection s.snake.headI).x == s.food.x &&
        (movePoint s.nextDirection s.snake.headI).y == s.food.y) = true :=
      (point_beq_iff _ _).mpr heat
    unfold gameTick
    simp [hw, hs, hf]

/-- Witness for C10 at the concrete eating state. -/
theorem snake_never_empty_witness :
    sampleState.snake ≠ [] ∧
      ((resetGame 5 5 (fun _ => (⟨0, 0⟩ : Point)) sampleState).snake.length = 3 ∧
        sampleState.snake.length ≤
          (gameTick 5 5 (fun _ => (⟨0, 0⟩ : Point)) sampleState).snake.length ∧
        (gameTick 5 5 (fun _ => (⟨0, 0⟩ : Point)) sampleState).snake ≠ [] ∧
        (wallCollision 5 5 (movePoint sampleState.nextDirection sampleState.snake.headI) = false →
          selfCollision sampleState.snake
            (movePoint sampleState.nextDirection sampleState.snake.headI) = false →
          movePoint sampleState.nextDirection sampleState.snake.headI = sampleState.food →
          sampleState.snake.length <
            (gameTick 5 5 (fun _ => (⟨0, 0⟩ : Point)) sampleState).snake.length)) :=
  ⟨by decide, snake_never_empty 5 5 (fun _ => (⟨0, 0⟩ : Point)) sampleState (by decide)⟩

/-- The classifier answers `RIGHT` exactly when the horizontal axis
dominates strictly and the displacement is more negative than the
threshold. -/
theorem detectGesture_right_iff (wrist indexTip : Landmark) :
    detectGesture wrist indexTip = some Direction.RIGHT ↔
      |indexTip.y - wrist.y| < |indexTip.x - wrist.x| ∧
        indexTip.x - wrist.x < -SENSITIVITY := by
  unfold detectGesture
  dsimp only
  split_ifs with h1 h2 h3 h4 h5
  · simp [h1, h3]
  · simp [h3]
  · constructor
    · intro h; simp at h
    · rintro ⟨h1x, h3x⟩
      refine absurd ?_ h2
      calc SENSITIVITY < -(indexTip.x - wrist.x) := by linarith
        _ ≤ |indexTip.x - wrist.x| := neg_le_abs _
  · simp [h1]
  · simp [h1]
  · simp [h1]

/-- The classifier answers `LEFT` exactly when the horizontal axis
dominates strictly and the displacement exceeds the threshold. -/
theorem detectGesture_left_iff (wrist indexTip : Landmark) :
    detectGesture wrist indexTip = some Direction.LEFT ↔
      |indexTip.y - wrist.y| < |indexTip.x - wrist.x| ∧
        SENSITIVITY < indexTip.x - wrist.x := by
  have hS : (0 : ℚ) < SENSITIVITY := by norm_num [SENSITIVITY]
  unfold detectGesture
  dsimp only
  split_ifs with h1 h2 h3 h4 h5
  · have hx : ¬ SENSITIVITY < indexTip.x - wrist.x := by linarith
    simp [hx]
  · have hx : SENSITIVITY < indexTip.x - wrist.x := by
      rcases abs_choice (indexTip.x - wrist.x) with h | h
      · rwa [h] at h2
      · exfalso
        rw [h] at h2
        exact h3 (by linarith)
    simp [h1, hx]
  · constructor
    · intro h; simp at h
    · rintro ⟨h1x, h3x⟩
      exact absurd (lt_of_lt_of_le h3x (le_abs_self _)) h2
  · simp [h1]
  · simp [h1]
  · simp [h1]

/-- The classifier answers `UP` exactly when the vertical axis is the
candidate (ties included) and the displacement is more negative than
the threshold. -/
theorem detectGesture_up_iff (wrist indexTip : Landmark) :
    detectGesture wrist indexTip = some Direction.UP ↔
      |indexTip.x - wrist.x| ≤ |indexTip.y - wrist.y| ∧
        indexTip.y - wrist.y < -SENSITIVITY := by
  unfold detectGesture
  dsimp only
  split_ifs with h1 h2 h3 h4 h5
  · simp [not_le.mpr h1]
  · simp [not_le.mpr h1]
  · simp [not_le.mpr h1]
  · simp [not_lt.mp h1, h5]
  · simp [h5]
  · constructor
    · intro h; simp at h
    · rintro ⟨h1x, h5x⟩
      refine absurd ?_ h4
      calc SENSITIVITY < -(indexTip.y - wrist.y) := by linarith
        _ ≤ |indexTip.y - wrist.y| := neg_le_abs _

/-- The classifier answers `DOWN` exactly when the vertical axis is the
candidate (ties included) and the displacement exceeds the threshold. -/
theorem detectGesture_down_iff (wrist indexTip : Landmark) :
    detectGesture wrist indexTip = some Direction.DOWN ↔
      |indexTip.x - wrist.x| ≤ |indexTip.y - wrist.y| ∧
        SENSITIVITY < indexTip.y - wrist.y := by
  have hS : (0 : ℚ) < SENSITIVITY := by norm_num [SENSITIVITY]
  unfold detectGesture
  dsimp only
  split_ifs with h1 h2 h3 h4 h5
  · simp [not_le.mpr h1]
  · simp [not_le.mpr h1]
  · simp [not_le.mpr h1]
  · have hy : ¬ SENSITIVITY < indexTip.y - wrist.y := by linarith
    simp [hy]
  · have hy : SENSITIVITY < indexTip.y - wrist.y := by
      rcases abs_choice (indexTip.y - wrist.y) with h | h
      · rwa [h] at h4
      · exfalso
        rw [h] at h4
        exact h5 (by linarith)
    simp [not_lt.mp h1, hy]
  · constructor
    · intro h; simp at h
    · rintro ⟨h1x, h5x⟩
      exact absurd (lt_of_lt_of_le h5x (le_abs_self _)) h4

/-- The classifier answers no direction exactly when the candidate
axis's magnitude does not exceed the threshold. -/
theorem detectGesture_none_iff (wrist indexTip : Landmark) :
    detectGesture wrist indexTip = none ↔
      (|indexTip.y - wrist.y| < |indexTip.x - wrist.x| ∧
          |indexTip.x - wrist.x| ≤ SENSITIVITY) ∨
        (|indexTip.x - wrist.x| ≤ |indexTip.y - wrist.y| ∧
          |indexTip.y - wrist.y| ≤ SENSITIVITY) := by
  unfold detectGesture
  dsimp only
  split_ifs with h1 h2 h3
  · simp [not_le.mpr h1, not_le.mpr h2]
  · simp [h1, not_lt.mp h2]
  · simp [h1, not_le.mpr h3]
  · simp [not_lt.mp h1, not_lt.mp h3]

/-- Claim C6: the classifier obeys the documented threshold and sign
mapping — on a strictly dominant horizontal axis, a delta more negative
than the sensitivity yields `RIGHT` and a delta above it yields `LEFT`;
on a (weakly) dominant vertical axis, a delta more negative than the
sensitivity yields `UP` and a delta above it yields `DOWN`; when the
candidate axis's magnitude does not exceed the sensitivity the result
is no direction.  In particular wrist (0.5,0.5) with index tip
(0.5,0.3) yields `UP`, with (0.3,0.5) yields `RIGHT`, and with
(0.52,0.52) yields no direction. -/
theorem gesture_threshold_sign_mapping (wrist indexTip : Landmark) :
    (detectGesture wrist indexTip = some Direction.RIGHT ↔
        |indexTip.y - wrist.y| < |indexTip.x - wrist.x| ∧
          indexTip.x - wrist.x < -SENSITIVITY) ∧
      (detectGesture wrist indexTip = some Direction.LEFT ↔
        |indexTip.y - wrist.y| < |indexTip.x - wrist.x| ∧
          SENSITIVITY < indexTip.x - wrist.x) ∧
      (detectGesture wrist indexTip = some Direction.UP ↔
        |indexTip.x - wrist.x| ≤ |indexTip.y - wrist.y| ∧
          indexTip.y - wrist.y < -SENSITIVITY) ∧
      (detectGesture wrist indexTip = some Direction.DOWN ↔
        |indexTip.x - wrist.x| ≤ |indexTip.y - wrist.y| ∧
          SENSITIVITY < indexTip.y - wrist.y) ∧
      (detectGesture wrist indexTip = none ↔
        (|indexTip.y - wrist.y| < |indexTip.x - wrist.x| ∧
            |indexTip.x - wrist.x| ≤ SENSITIVITY) ∨
          (|indexTip.x - wrist.x| ≤ |indexTip.y - wrist.y| ∧
            |indexTip.y - wrist.y| ≤ SENSITIVITY)) ∧
      detectGesture ⟨1/2, 1/2⟩ ⟨1/2, 3/10⟩ = some Direction.UP ∧
      detectGesture ⟨1/2, 1/2⟩ ⟨3/10, 1/2⟩ = some Direction.RIGHT ∧
      detectGesture ⟨1/2, 1/2⟩ ⟨13/25, 13/25⟩ = none :=
  ⟨detectGesture_right_iff wrist indexTip,
    detectGesture_left_iff wrist indexTip,
    detectGesture_up_iff wrist indexTip,
    detectGesture_down_iff wrist indexTip,
    detectGesture_none_iff wrist indexTip,
    by norm_num [detectGesture, SENSITIVITY, abs, max_def],
    by norm_num [detectGesture, SENSITIVITY, abs, max_def],
    by norm_num [detectGesture, SENSITIVITY, abs, max_def]⟩

/-- Counterexample to C5 as stated: the displacement from wrist (0,0)
to index tip (0.2,0.2) is an above-threshold tie (|deltaX| = |deltaY| =
0.2 > 0.08), yet the classifier returns `DOWN` — a vertical direction,
not `LEFT` or `RIGHT`: the strict comparator sends ties to the
vertical branch. -/
theorem tie_axis_counterexample :
    |((⟨1/5, 1/5⟩ : Landmark).x - ((⟨0, 0⟩ : Landmark)).x)| =
        |((⟨1/5, 1/5⟩ : Landmark).y - ((⟨0, 0⟩ : Landmark)).y)| ∧
      SENSITIVITY < |((⟨1/5, 1/5⟩ : Landmark).y - ((⟨0, 0⟩ : Landmark)).y)| ∧
      detectGesture ⟨0, 0⟩ ⟨1/5, 1/5⟩ = some Direction.DOWN ∧
      detectGesture ⟨0, 0⟩ ⟨1/5, 1/5⟩ ≠ some Direction.LEFT ∧
      detectGesture ⟨0, 0⟩ ⟨1/5, 1/5⟩ ≠ some Direction.RIGHT := by
  norm_num [detectGesture, SENSITIVITY, abs, max_def]
  decide

/-- Claim C5 as amended: on a tied displacement (|deltaX| = |deltaY|)
the classifier selects the vertical axis (the strict `>` comparator
fails on ties), so an above-threshold tied input yields `UP` or
`DOWN`, never `LEFT` or `RIGHT`. -/
theorem tie_selects_vertical (wrist indexTip : Landmark)
    (htie : |indexTip.x - wrist.x| = |indexTip.y - wrist.y|)
    (hthr : SENSITIVITY < |indexTip.y - wrist.y|) :
    detectGesture wrist indexTip = some Direction.UP ∨
      detectGesture wrist indexTip = some Direction.DOWN := by
  unfold detectGesture
  dsimp only
  rw [htie]
  rw [if_neg (lt_irrefl _)]
  rw [if_pos hthr]
  by_cases h : indexTip.y - wrist.y < -SENSITIVITY
  · left
    rw [if_pos h]
  · right
    rw [if_neg h]

/-- Witness for the amended C5 at the concrete tied input. -/
theorem tie_selects_vertical_witness :
    |((⟨1/5, 1/5⟩ : Landmark).x - ((⟨0, 0⟩ : Landmark)).x)| =
        |((⟨1/5, 1/5⟩ : Landmark).y - ((⟨0, 0⟩ : Landmark)).y)| ∧
      SENSITIVITY < |((⟨1/5, 1/5⟩ : Landmark).y - ((⟨0, 0⟩ : Landmark)).y)| ∧
      (detectGesture ⟨0, 0⟩ ⟨1/5, 1/5⟩ = some Direction.UP ∨
        detectGesture ⟨0, 0⟩ ⟨1/5, 1/5⟩ = some Direction.DOWN) :=
  ⟨by norm_num, by norm_num [SENSITIVITY, abs, max_def],
    tie_selects_vertical ⟨0, 0⟩ ⟨1/5, 1/5⟩ (by norm_num)
      (by norm_num [SENSITIVITY, abs, max_def])⟩

/-- Any position produced by the rejection loop misses every snake
segment, whatever the draw stream, the starting index and the fuel. -/
theorem generateFoodAux_not_on_snake (availableX availableY : Nat)
    (draws : Nat → Nat × Nat) (currentSnake : List Point) :
    ∀ fuel i p,
      generateFoodAux availableX availableY draws currentSnake fuel i = some p →
        ∀ segment ∈ currentSnake, segment ≠ p := by
  intro fuel
  induction fuel with
  | zero =>
    intro i p h
    simp [generateFoodAux] at h
  | succ n ih =>
    intro i p h
    unfold generateFoodAux at h
    dsimp only at h
    split at h
    · exact ih (i + 1) p h
    · rename_i hc
      rw [Option.some.injEq] at h
      subst h
      intro segment hseg hep
      refine hc (List.any_eq_true.mpr ⟨segment, hseg, ?_⟩)
      rw [hep]
      simp

/-- Claim C8: whenever the food placement routine returns a position,
that position does not equal any segment of the snake it was given at
the moment of spawning. -/
theorem generateFood_not_on_snake (width height : Nat) (draws : Nat → Nat × Nat)
    (fuel : Nat) (currentSnake : List Point) (p : Point)
    (h : generateFood width height draws fuel currentSnake = some p) :
    ∀ segment ∈ currentSnake, segment ≠ p := by
  unfold generateFood at h
  dsimp only at h
  exact generateFoodAux_not_on_snake _ _ draws currentSnake fuel 0 p h

/-- Witness for C8: on a 600×400 board with snake [(2,2)], the first
draw collides with the snake and is rejected; the second is accepted
and differs from the snake segment. -/
theorem generateFood_not_on_snake_witness :
    generateFood 600 400 (fun i => (i, 0)) 5 [⟨2, 2⟩] = some ⟨3, 2⟩ ∧
      ∀ segment ∈ [(⟨2, 2⟩ : Point)], segment ≠ (⟨3, 2⟩ : Point) :=
  ⟨by decide,
    generateFood_not_on_snake 600 400 (fun i => (i, 0)) 5 [⟨2, 2⟩] ⟨3, 2⟩ (by decide)⟩

/-- Claim C9: on any theme-fetch failure — the API call rejecting, or
response text that fails to parse — `generateLevelTheme` returns the
complete fallback record: every field of the fixed default theme, with
only the name and the story text replaced by offline-mode values. -/
theorem theme_fallback (parse : String → Option GameTheme) (level : Nat)
    (previousThemeName : String) (text : String) (hmal : parse text = none) :
    generateLevelTheme parse level previousThemeName FetchOutcome.apiError =
        offlineTheme level ∧
      generateLevelTheme parse level previousThemeName
          (FetchOutcome.response (some text)) = offlineTheme level ∧
      (offlineTheme level).name = "Level " ++ toString level ++ " (Offline Mode)" ∧
      (offlineTheme level).storyText = "Uplink failed. Running local simulation." ∧
      (offlineTheme level).gridColor = DEFAULT_THEME.gridColor ∧
      (offlineTheme level).snakeHeadColor = DEFAULT_THEME.snakeHeadColor ∧
      (offlineTheme level).snakeBodyColor = DEFAULT_THEME.snakeBodyColor ∧
      (offlineTheme level).foodColor = DEFAULT_THEME.foodColor ∧
      (offlineTheme level).backgroundColor = DEFAULT_THEME.backgroundColor ∧
      (offlineTheme level).glowColor = DEFAULT_THEME.glowColor := by
  refine ⟨rfl, ?_, rfl, rfl, rfl, rfl, rfl, rfl, rfl, rfl⟩
  simp [generateLevelTheme, hmal]

/-- Witness for C9 with a parser that rejects the response text. -/
theorem theme_fallback_witness :
    (fun _ : String => (none : Option GameTheme)) "garbage" = none ∧
      (generateLevelTheme (fun _ => none) 3 "Neon Genesis" FetchOutcome.apiError =
          offlineTheme 3 ∧
        generateLevelTheme (fun _ => none) 3 "Neon Genesis"
            (FetchOutcome.response (some "garbage")) = offlineTheme 3 ∧
        (offlineTheme 3).name = "Level " ++ toString 3 ++ " (Offline Mode)" ∧
        (offlineTheme 3).storyText = "Uplink failed. Running local simulation." ∧
        (offlineTheme 3).gridColor = DEFAULT_THEME.gridColor ∧
        (offlineTheme 3).snakeHeadColor = DEFAULT_THEME.snakeHeadColor ∧
        (offlineTheme 3).snakeBodyColor = DEFAULT_THEME.snakeBodyColor ∧
        (offlineTheme 3).foodColor = DEFAULT_THEME.foodColor ∧
        (offlineTheme 3).backgroundColor = DEFAULT_THEME.backgroundColor ∧
        (offlineTheme 3).glowColor = DEFAULT_THEME.glowColor) :=
  ⟨rfl, theme_fallback (fun _ => none) 3 "Neon Genesis" "garbage" rfl⟩
